import Mathlib

/-!
Shallow embedding of `src/app.py` (DEVASANJAY001/trade): the rolling
per-token volume memory, the tick handlers, and the per-cycle snapshot
construction of `ranking_engine`, together with theorems settling the
spec's claims about them.

Modelling conventions:
* timestamps are rationals (seconds); the code uses wall-clock datetimes,
  and only their ordering and differences matter here;
* the numeric tick fields are rationals; Python's float weights 0.3 etc.
  are modelled by the exact rationals they denote;
* Python's `round(x, 2)` is modelled by rounding `x * 100` to the nearest
  integer (Mathlib's `round`) and dividing by 100;
* `dict.get(k, d)` defaulting is folded into the record fields: a `Tick`
  carries the values the code reads after defaulting;
* `defaultdict(lambda: deque(maxlen=200))` is a total function from
  tokens to sample lists whose value is `[]` for unseen tokens.
-/

/-- One entry of the per-token rolling store `volume_memory`: the pair
`(now, tick.get("volume", 0))` appended by `on_ticks` (src/app.py:106). -/
structure Sample where
  t : ℚ
  v : ℚ
deriving Repr, DecidableEq

/-- The rolling store `volume_memory` (src/app.py:44): per token a
sequence of samples, oldest first, as held by the bounded deque. -/
abbrev VolumeMemory := Nat → List Sample

/-- The function `calculate_volume(token, seconds)` (src/app.py:124-132): iterate the
token's samples and add up `v` for every sample with
`t >= now - timedelta(seconds=seconds)`. -/
def calculate_volume (mem : VolumeMemory) (token : Nat) (seconds now : ℚ) : ℚ :=
  (mem token).foldl (fun total s => if now - seconds ≤ s.t then total + s.v else total) 0

/-- Modelled from the spec: `windowedDelta(token, windowSeconds)` — with
W the samples whose `timestamp >= now - windowSeconds`, return 0 when
`|W| < 2` and `last(W).cumulativeVolume - first(W).cumulativeVolume`
otherwise.  This is the spec's contract, to be compared with the code's
`calculate_volume`; it is not code of the repository. -/
def windowedDelta (mem : VolumeMemory) (token : Nat) (seconds now : ℚ) : ℚ :=
  match (mem token).filter (fun s => now - seconds ≤ s.t) with
  | a :: b :: rest => ((b :: rest).getLast (List.cons_ne_nil b rest)).v - a.v
  | _ => 0

/-- An inbound tick as the handlers read it: `instrument_token` plus the
numeric fields the code extracts with `.get(field, 0)` defaulting
(src/app.py:102,106,157,187-188,198-202). -/
structure Tick where
  instrument_token : Nat
  volume : ℚ
  oi : ℚ
  change : ℚ
  last_price : ℚ
  iv : ℚ
deriving Repr, DecidableEq

/-- The mutable feed state touched by `on_ticks`: `latest_ticks`
(src/app.py:39) and `volume_memory` (src/app.py:44). -/
structure FeedState where
  latest_ticks : Nat → Option Tick
  volume_memory : VolumeMemory

/-- Python's `deque(maxlen=cap).append`: append on the right, discarding from the
left whenever the length would exceed `cap`. -/
def deque_append (cap : Nat) (xs : List Sample) (s : Sample) : List Sample :=
  let ys := xs ++ [s]
  if cap < ys.length then ys.drop (ys.length - cap) else ys

/-- The body of the `for tick in ticks` loop of `on_ticks`
(src/app.py:101-106): overwrite `latest_ticks[token]` and append
`(now, tick.get("volume", 0))` to `volume_memory[token]` (maxlen 200). -/
def record_tick (now : ℚ) (st : FeedState) (tick : Tick) : FeedState where
  latest_ticks := Function.update st.latest_ticks tick.instrument_token (some tick)
  volume_memory := Function.update st.volume_memory tick.instrument_token
    (deque_append 200 (st.volume_memory tick.instrument_token) ⟨now, tick.volume⟩)

/-- The handler `on_ticks(ws, ticks)` (src/app.py:98-106): one wall-clock `now` is
taken for the whole batch, then every tick of the batch is recorded. -/
def on_ticks (st : FeedState) (now : ℚ) (ticks : List Tick) : FeedState :=
  ticks.foldl (record_tick now) st

/-- One row of `instrument_df` as `ranking_engine` reads it
(src/app.py:151,195-197). -/
structure Instrument where
  instrument_token : Nat
  tradingsymbol : String
  strike : ℚ
  instrument_type : String
deriving Repr, DecidableEq

/-- One element of `snapshot_rows` (src/app.py:194-212). -/
structure SnapshotRow where
  symbol : String
  strike : ℚ
  type : String
  ltp : ℚ
  volume : ℚ
  oi : ℚ
  iv : ℚ
  vol_10s : ℚ
  vol_30s : ℚ
  vol_1m : ℚ
  vol_3m : ℚ
  vol_5m : ℚ
  score : ℚ
  confidence : ℚ
  volume_power : String
deriving Repr, DecidableEq

/-- Python's `round(q, 2)`: round to the nearest hundredth.  Mathlib's
`round` rounds halves up where Python rounds them to even; the two agree
everywhere except at exact half-hundredths, which no claim depends on. -/
def round2 (q : ℚ) : ℚ := ((round (q * 100) : ℤ) : ℚ) / 100

/-- The per-instrument body of the cycle loop once a tick is present
(src/app.py:157-212): the five windowed volumes, the weighted score, the
clamped confidence, and the snapshot row. -/
def snapshotRow (mem : VolumeMemory) (now : ℚ) (row : Instrument) (tick : Tick) :
    SnapshotRow :=
  let vol_10s := calculate_volume mem row.instrument_token 10 now
  let vol_30s := calculate_volume mem row.instrument_token 30 now
  let vol_1m := calculate_volume mem row.instrument_token 60 now
  let vol_3m := calculate_volume mem row.instrument_token 180 now
  let vol_5m := calculate_volume mem row.instrument_token 300 now
  let score := vol_10s * (3 / 10) + vol_30s * (1 / 4) + vol_1m * (1 / 5)
      + tick.oi * (3 / 20) + |tick.change| * (1 / 10)
  { symbol := row.tradingsymbol
    strike := row.strike
    type := row.instrument_type
    ltp := tick.last_price
    volume := tick.volume
    oi := tick.oi
    iv := tick.iv
    vol_10s := vol_10s
    vol_30s := vol_30s
    vol_1m := vol_1m
    vol_3m := vol_3m
    vol_5m := vol_5m
    score := score
    confidence := round2 (min (score / 100000) 1 * 100)
    volume_power := if vol_10s > vol_1m then "HIGH" else "NORMAL" }

/-- The instrument loop of one cycle (src/app.py:149-212) with Python
exception semantics made explicit: each instrument's step either skips
(`ok none`, the `continue` of line 155), yields a row (`ok (some _)`),
or raises (`error _`); a raise aborts the rest of the loop, because the
single `try` of line 141 encloses the whole loop. -/
def cycle_go (step : Instrument → Except String (Option SnapshotRow)) :
    List Instrument → Except String (List SnapshotRow)
  | [] => Except.ok []
  | r :: rs =>
    match step r with
    | Except.error e => Except.error e
    | Except.ok none => cycle_go step rs
    | Except.ok (some row) =>
      match cycle_go step rs with
      | Except.error e => Except.error e
      | Except.ok rest => Except.ok (row :: rest)

/-- The rows a cycle publishes: on a raise anywhere in the loop, control
jumps to the `except` of line 225 before the bulk insert of lines
218-222, so nothing is published that cycle. -/
def publish_rows (step : Instrument → Except String (Option SnapshotRow))
    (catalog : List Instrument) : List SnapshotRow :=
  match cycle_go step catalog with
  | Except.ok rows => rows
  | Except.error _ => []

/-- The concrete per-instrument step of the code: look the token up in
`latest_ticks`, skip when absent (src/app.py:152-155), otherwise build
the snapshot row.  None of the arithmetic of lines 157-212 raises. -/
def instrument_step (mem : VolumeMemory) (ticks : Nat → Option Tick) (now : ℚ)
    (row : Instrument) : Except String (Option SnapshotRow) :=
  match ticks row.instrument_token with
  | none => Except.ok none
  | some tick => Except.ok (some (snapshotRow mem now row tick))

/-- One cycle of `ranking_engine` (src/app.py:149-223): the list of
snapshot rows produced for the catalog, in the order they are appended. -/
def ranking_cycle (catalog : List Instrument) (ticks : Nat → Option Tick)
    (mem : VolumeMemory) (now : ℚ) : List SnapshotRow :=
  publish_rows (instrument_step mem ticks now) catalog

/-- A per-instrument step that raises on instrument token 1 — the shape
of a scoring failure (e.g. a malformed row field) under the code's
single cycle-wide try/except — and behaves like the code on every other
instrument. -/
def failing_step (mem : VolumeMemory) (ticks : Nat → Option Tick) (now : ℚ)
    (row : Instrument) : Except String (Option SnapshotRow) :=
  if row.instrument_token = 1 then Except.error "KeyError"
  else instrument_step mem ticks now row

/-- Every per-token deque of the store holds at most 200 samples — the
bound `deque(maxlen=200)` maintains (src/app.py:44). -/
def memory_bounded (st : FeedState) : Prop :=
  ∀ tok, (st.volume_memory tok).length ≤ 200

/-- All recorded volume values for a token are non-negative — true of
the live feed, where `tick.get("volume", 0)` is a non-negative counter. -/
def nonneg_samples (mem : VolumeMemory) (token : Nat) : Prop :=
  ∀ s ∈ mem token, 0 ≤ s.v

/-- The accumulating loop of `calculate_volume`, closed form: folding the
conditional addition over a list starting from `init` yields `init` plus
the sum of the `v` fields of the samples satisfying the condition. -/
theorem foldl_if_add (p : Sample → Prop) [DecidablePred p] :
    ∀ (xs : List Sample) (init : ℚ),
      xs.foldl (fun total s => if p s then total + s.v else total) init
        = init + (((xs.filter fun s => p s).map Sample.v).sum)
  | [], init => by simp
  | x :: xs, init => by
    by_cases h : p x <;>
      simp [List.filter_cons, h, foldl_if_add p xs, add_assoc]

/-- `calculate_volume` equals the sum of the volume fields of the
samples inside the queried window. -/
theorem calcVolume_eq_sum (mem : VolumeMemory) (token : Nat) (seconds now : ℚ) :
    calculate_volume mem token seconds now
      = (((mem token).filter fun s => now - seconds ≤ s.t).map Sample.v).sum := by
  simpa [calculate_volume] using foldl_if_add (fun s => now - seconds ≤ s.t) (mem token) 0

/-- C1: FALSE as stated.  On the spec's own example — samples (t=0,
vol=100), (t=5, vol=150), (t=12, vol=300), a 10-second window at t=12 —
the code's `calculate_volume` sums the in-window volume values and
returns 450, while the spec's `windowedDelta` contract (last minus first
cumulative volume) gives 150. -/
theorem C1_counterexample :
    calculate_volume (fun _ => [⟨0, 100⟩, ⟨5, 150⟩, ⟨12, 300⟩]) 1 10 12 = 450 ∧
    windowedDelta (fun _ => [⟨0, 100⟩, ⟨5, 150⟩, ⟨12, 300⟩]) 1 10 12 = 150 ∧
    (450 : ℚ) ≠ 150 := by
  refine ⟨by norm_num [calculate_volume], ?_, by norm_num⟩
  norm_num [windowedDelta, List.filter, List.getLast]

/-- C1 amended: for every token and window length, the windowed volume
computation returns the SUM of the recorded volume values of the samples
whose timestamp lies within the trailing window (timestamp ≥ now −
windowSeconds) — not the last-minus-first cumulative delta; on the
example samples (0,100), (5,150), (12,300) with a 10-second window at
t=12 it yields 450. -/
theorem C1_amended :
    (∀ (mem : VolumeMemory) (token : Nat) (seconds now : ℚ),
        calculate_volume mem token seconds now
          = (((mem token).filter fun s => now - seconds ≤ s.t).map Sample.v).sum) ∧
    calculate_volume (fun _ => [⟨0, 100⟩, ⟨5, 150⟩, ⟨12, 300⟩]) 1 10 12 = 450 := by
  exact ⟨calcVolume_eq_sum, by norm_num [calculate_volume]⟩

/-- C2: FALSE as stated.  A rolling window holding exactly one sample
inside the queried window — fewer than two — does not make
`calculate_volume` return 0: with the single sample (t=12, vol=100) and
a 10-second window at t=12 it returns that sample's volume, 100. -/
theorem C2_counterexample :
    calculate_volume (fun _ => [⟨12, 100⟩]) 1 10 12 = 100 ∧ (100 : ℚ) ≠ 0 := by
  constructor
  · norm_num [calculate_volume]
  · norm_num

/-- C2 amended: for every token whose rolling window contains NO sample
inside the queried time window, the windowed volume computation returns
0 (the zero-summand case of the sum; with exactly one in-window sample
the code returns that sample's volume instead of 0). -/
theorem C2_amended (mem : VolumeMemory) (token : Nat) (seconds now : ℚ)
    (h : (mem token).filter (fun s => now - seconds ≤ s.t) = []) :
    calculate_volume mem token seconds now = 0 := by
  rw [calcVolume_eq_sum, h]
  simp

/-- Witness for C2 amended at a concrete input: a sample 100 seconds in
the past, queried with a 10-second window. -/
theorem C2_witness :
    ([(⟨0, 100⟩ : Sample)].filter (fun s => (200 : ℚ) - 10 ≤ s.t) = []) ∧
    calculate_volume (fun _ => [⟨0, 100⟩]) 7 10 200 = 0 := by
  have h : ([(⟨0, 100⟩ : Sample)].filter (fun s => (200 : ℚ) - 10 ≤ s.t) = []) := by
    norm_num [List.filter]
  exact ⟨h, C2_amended (fun _ => [⟨0, 100⟩]) 7 10 200 h⟩

/-- C10: for every token that has no recorded samples — in particular a
token never seen before, for which `defaultdict` yields a fresh empty
deque — `calculate_volume` returns 0 for every window length and every
evaluation time, rather than failing. -/
theorem C10_empty_store_zero (mem : VolumeMemory) (token : Nat) (seconds now : ℚ)
    (h : mem token = []) :
    calculate_volume mem token seconds now = 0 := by
  simp [calculate_volume, h]

/-- Witness for C10 at a concrete input: the all-empty store. -/
theorem C10_witness :
    ((fun _ => ([] : List Sample)) 42 = ([] : List Sample)) ∧
    calculate_volume (fun _ => []) 42 300 1000 = 0 :=
  ⟨rfl, C10_empty_store_zero (fun _ => []) 42 300 1000 rfl⟩

/-- With the code's per-instrument step nothing raises, so the cycle
loop reaches every instrument and collects exactly the rows of the
instruments whose token has a latest tick, in catalog order. -/
theorem cycleGo_instrument_ok (mem : VolumeMemory) (ticks : Nat → Option Tick) (now : ℚ) :
    ∀ catalog : List Instrument,
      cycle_go (instrument_step mem ticks now) catalog
        = Except.ok (catalog.filterMap
            fun r => (ticks r.instrument_token).map (snapshotRow mem now r))
  | [] => by simp [cycle_go]
  | r :: rs => by
    cases h : ticks r.instrument_token <;>
      simp [cycle_go, instrument_step, h, cycleGo_instrument_ok mem ticks now rs,
        List.filterMap_cons]

/-- C3: FALSE as stated.  The cycle never sorts: with a catalog of two
instruments where the first scores 0 and the second scores 15 (open
interest 100, weight 3/20), the published row sequence carries the
scores in catalog order [0, 15], which is not descending. -/
theorem C3_counterexample :
    (ranking_cycle [⟨1, "A", 0, "CE"⟩, ⟨2, "B", 0, "PE"⟩]
        (fun t => if t = 1 then some ⟨1, 0, 0, 0, 0, 0⟩
          else if t = 2 then some ⟨2, 0, 100, 0, 0, 0⟩ else none)
        (fun _ => []) 0).map SnapshotRow.score = [0, 15] ∧
    ¬ List.Sorted (fun a b : ℚ => b ≤ a) [(0 : ℚ), 15] := by
  constructor
  · simp only [ranking_cycle, publish_rows, cycleGo_instrument_ok]
    norm_num [List.filterMap_cons, snapshotRow, calculate_volume]
  · simp [List.Sorted]

/-- C3 amended: for every cycle and every input catalog, the produced
snapshot sequence lists the instruments that have a latest tick in their
original catalog order — no sort by score (and no tie-breaking) is
applied anywhere. -/
theorem C3_amended (catalog : List Instrument) (ticks : Nat → Option Tick)
    (mem : VolumeMemory) (now : ℚ) :
    (ranking_cycle catalog ticks mem now).map SnapshotRow.symbol
      = (catalog.filter fun r => (ticks r.instrument_token).isSome).map
          Instrument.tradingsymbol := by
  simp only [ranking_cycle, publish_rows, cycleGo_instrument_ok]
  induction catalog with
  | nil => simp
  | cons r rs ih =>
    cases h : ticks r.instrument_token <;>
      simp [List.filterMap_cons, List.filter_cons, h, ih, snapshotRow]

/-- C8: for every tracked instrument whose token has no entry in
`latest_ticks` this session, the cycle skips it — the output is exactly
the output for the rest of the catalog — and the loop completes without
an error (the step sequence still returns `ok`). -/
theorem C8_missing_tick_skipped (r : Instrument) (catalog : List Instrument)
    (ticks : Nat → Option Tick) (mem : VolumeMemory) (now : ℚ)
    (h : ticks r.instrument_token = none) :
    ranking_cycle (r :: catalog) ticks mem now = ranking_cycle catalog ticks mem now ∧
    cycle_go (instrument_step mem ticks now) (r :: catalog)
      = Except.ok (ranking_cycle (r :: catalog) ticks mem now) := by
  simp [ranking_cycle, publish_rows, cycleGo_instrument_ok, List.filterMap_cons, h]

/-- Witness for C8 at a concrete input: one instrument, no tick ever. -/
theorem C8_witness :
    ((fun _ => (none : Option Tick)) (9 : Nat) = none) ∧
    (ranking_cycle [⟨9, "X", 0, "CE"⟩] (fun _ => none) (fun _ => []) 0
        = ranking_cycle [] (fun _ => none) (fun _ => []) 0 ∧
      cycle_go (instrument_step (fun _ => []) (fun _ => none) 0) [⟨9, "X", 0, "CE"⟩]
        = Except.ok (ranking_cycle [⟨9, "X", 0, "CE"⟩] (fun _ => none) (fun _ => []) 0)) :=
  ⟨rfl, C8_missing_tick_skipped ⟨9, "X", 0, "CE"⟩ [] (fun _ => none) (fun _ => []) 0 rfl⟩

/-- If any instrument of the catalog makes its step raise, the whole
loop raises: the first raising instrument reached aborts the iteration,
and rows collected before it are never returned. -/
theorem cycleGo_error_of_mem (step : Instrument → Except String (Option SnapshotRow)) :
    ∀ (catalog : List Instrument) (r : Instrument), r ∈ catalog →
      ∀ e, step r = Except.error e →
      ∃ e2, cycle_go step catalog = Except.error e2
  | [], r, hr, _, _ => absurd hr (List.not_mem_nil r)
  | a :: rs, r, hr, e, he => by
    rcases List.mem_cons.mp hr with rfl | hmem
    · exact ⟨e, by simp [cycle_go, he]⟩
    · obtain ⟨e2, h2⟩ := cycleGo_error_of_mem step rs r hmem e he
      cases ha : step a with
      | error e3 => exact ⟨e3, by simp [cycle_go, ha]⟩
      | ok o =>
        cases o with
        | none => exact ⟨e2, by simp [cycle_go, ha, h2]⟩
        | some row => exact ⟨e2, by simp [cycle_go, ha, h2]⟩

/-- C6: FALSE as stated.  With a catalog [A, B] where scoring A raises,
the cycle publishes nothing at all — B is gone too, although B alone
would have produced its row: the single try/except around the whole loop
aborts the cycle instead of skipping only the failing instrument. -/
theorem C6_counterexample :
    publish_rows
        (failing_step (fun _ => [])
          (fun t => if t = 2 then some ⟨2, 0, 100, 0, 0, 0⟩ else none) 0)
        [⟨1, "A", 0, "CE"⟩, ⟨2, "B", 0, "PE"⟩] = [] ∧
    publish_rows
        (failing_step (fun _ => [])
          (fun t => if t = 2 then some ⟨2, 0, 100, 0, 0, 0⟩ else none) 0)
        [⟨2, "B", 0, "PE"⟩]
      = [snapshotRow (fun _ => []) 0 ⟨2, "B", 0, "PE"⟩ ⟨2, 0, 100, 0, 0, 0⟩] := by
  constructor <;> simp [publish_rows, cycle_go, failing_step, instrument_step]

/-- C6 amended: if scoring any instrument of the catalog raises, the
error aborts the remainder of the loop and the cycle publishes no rows
at all — also discarding instruments already scored; only the engine's
outer loop survives (the next cycle runs), not the current cycle's
remaining instruments. -/
theorem C6_amended (step : Instrument → Except String (Option SnapshotRow))
    (catalog : List Instrument) (r : Instrument) (e : String)
    (hr : r ∈ catalog) (he : step r = Except.error e) :
    publish_rows step catalog = [] := by
  obtain ⟨e2, h2⟩ := cycleGo_error_of_mem step catalog r hr e he
  simp [publish_rows, h2]

/-- Witness for C6 amended at a concrete input: the two-instrument
catalog whose first instrument's scoring raises. -/
theorem C6_witness :
    ((⟨1, "A", 0, "CE"⟩ : Instrument) ∈
        [(⟨1, "A", 0, "CE"⟩ : Instrument), ⟨2, "B", 0, "PE"⟩]) ∧
    failing_step (fun _ => []) (fun _ => none) 0 ⟨1, "A", 0, "CE"⟩
      = Except.error "KeyError" ∧
    publish_rows (failing_step (fun _ => []) (fun _ => none) 0)
        [⟨1, "A", 0, "CE"⟩, ⟨2, "B", 0, "PE"⟩] = [] := by
  refine ⟨by simp, by simp [failing_step], ?_⟩
  exact C6_amended (failing_step (fun _ => []) (fun _ => none) 0) _
    ⟨1, "A", 0, "CE"⟩ "KeyError" (by simp) (by simp [failing_step])

/-- C4: FALSE as stated.  `on_ticks` stamps the whole batch with one
wall-clock `now` and appends unconditionally: two ticks for the same
token in one batch yield two stored samples with the same timestamp —
the second is inserted, not dropped, and the sequence is no longer
strictly time-ordered. -/
theorem C4_counterexample :
    ((on_ticks ⟨fun _ => none, fun _ => []⟩ 5
        [⟨1, 100, 0, 0, 0, 0⟩, ⟨1, 200, 0, 0, 0, 0⟩]).volume_memory 1)
      = [⟨5, 100⟩, ⟨5, 200⟩] ∧
    ¬ List.Chain' (fun a b : Sample => a.t < b.t) [⟨(5 : ℚ), 100⟩, ⟨5, 200⟩] := by
  constructor
  · norm_num [on_ticks, record_tick, deque_append, Function.update]
  · simp [List.chain'_cons]

/-- C4 amended: every tick is appended to its token's rolling window
unconditionally — no comparison with the last recorded timestamp is
made — so as long as the 200-sample cap is not hit, recording always
inserts the pair (batch arrival time, tick volume) at the end, even when
that timestamp is not strictly greater than the last one. -/
theorem C4_amended (st : FeedState) (now : ℚ) (tick : Tick)
    (h : (st.volume_memory tick.instrument_token).length < 200) :
    (on_ticks st now [tick]).volume_memory tick.instrument_token
      = st.volume_memory tick.instrument_token ++ [⟨now, tick.volume⟩] := by
  have hlen : ¬ 200 < (st.volume_memory tick.instrument_token).length + 1 := by omega
  simp [on_ticks, record_tick, deque_append, hlen]

/-- Witness for C4 amended at a concrete input: recording into an empty
store. -/
theorem C4_witness :
    (((⟨fun _ => none, fun _ => []⟩ : FeedState).volume_memory 1).length < 200) ∧
    (on_ticks ⟨fun _ => none, fun _ => []⟩ 5 [⟨1, 100, 0, 0, 0, 0⟩]).volume_memory 1
      = (⟨fun _ => none, fun _ => []⟩ : FeedState).volume_memory 1 ++ [⟨5, 100⟩] :=
  ⟨by simp, C4_amended ⟨fun _ => none, fun _ => []⟩ 5 ⟨1, 100, 0, 0, 0, 0⟩ (by simp)⟩

/-- C5: FALSE as stated.  An append does not evict by age: recording at
t = 10000 into a window holding a sample from t = 0 — 10000 seconds old,
far past any retention horizon tied to the largest 300-second window —
keeps the old sample, and a query with a large enough window still
reaches it (the result 150 includes the old volume 100 instead of being
the new sample's 50 alone). -/
theorem C5_counterexample :
    ((on_ticks ⟨fun _ => none, fun t => if t = 1 then [⟨0, 100⟩] else []⟩ 10000
        [⟨1, 50, 0, 0, 0, 0⟩]).volume_memory 1) = [⟨0, 100⟩, ⟨10000, 50⟩] ∧
    calculate_volume
        (on_ticks ⟨fun _ => none, fun t => if t = 1 then [⟨0, 100⟩] else []⟩ 10000
          [⟨1, 50, 0, 0, 0, 0⟩]).volume_memory 1 1000000 10000 = 150 ∧
    (150 : ℚ) ≠ 50 := by
  have h1 : ((on_ticks ⟨fun _ => none, fun t => if t = 1 then [⟨0, 100⟩] else []⟩ 10000
      [⟨1, 50, 0, 0, 0, 0⟩]).volume_memory 1) = [⟨0, 100⟩, ⟨10000, 50⟩] := by
    norm_num [on_ticks, record_tick, deque_append, Function.update]
  refine ⟨h1, ?_, by norm_num⟩
  rw [calculate_volume, h1]
  norm_num

/-- The bounded deque never exceeds its capacity: appending to a list
already within the cap stays within the cap. -/
theorem deque_append_length_le (cap : Nat) (xs : List Sample) (s : Sample)
    (h : xs.length ≤ cap) : (deque_append cap xs s).length ≤ cap := by
  unfold deque_append
  by_cases hc : cap < (xs ++ [s]).length
  · simp only [hc, if_true, List.length_drop]
    omega
  · simp only [hc, if_false]
    simp only [List.length_append, List.length_singleton] at hc ⊢
    omega

/-- C5 amended: per-token storage is bounded by the hard 200-sample
ceiling alone — appends never evict by age — and that ceiling is an
invariant of every batch: if every token holds at most 200 samples
before `on_ticks`, the same holds after it.  (Old samples stay stored
and reachable while among the most recent 200; queries filter only by
the window actually asked for.) -/
theorem C5_amended (st : FeedState) (now : ℚ) (ticks : List Tick)
    (h : memory_bounded st) : memory_bounded (on_ticks st now ticks) := by
  induction ticks generalizing st with
  | nil => exact h
  | cons t ts ih =>
    apply ih
    intro tok
    by_cases htok : tok = t.instrument_token
    · subst htok
      simp only [record_tick, Function.update_same]
      exact deque_append_length_le 200 _ _ (h t.instrument_token)
    · simp only [record_tick, Function.update_noteq htok]
      exact h tok

/-- Witness for C5 amended at a concrete input: a one-tick batch into
the empty store. -/
theorem C5_witness :
    memory_bounded ⟨fun _ => none, fun _ => []⟩ ∧
    memory_bounded (on_ticks ⟨fun _ => none, fun _ => []⟩ 0 [⟨1, 5, 0, 0, 0, 0⟩]) := by
  have h : memory_bounded (⟨fun _ => none, fun _ => []⟩ : FeedState) := by
    intro tok; simp
  exact ⟨h, C5_amended ⟨fun _ => none, fun _ => []⟩ 0 [⟨1, 5, 0, 0, 0, 0⟩] h⟩

/-- The confidence field of a snapshot row, written out. -/
theorem snapshotRow_confidence (mem : VolumeMemory) (now : ℚ) (row : Instrument)
    (tick : Tick) :
    (snapshotRow mem now row tick).confidence
      = round2 (min ((calculate_volume mem row.instrument_token 10 now * (3 / 10)
          + calculate_volume mem row.instrument_token 30 now * (1 / 4)
          + calculate_volume mem row.instrument_token 60 now * (1 / 5)
          + tick.oi * (3 / 20) + |tick.change| * (1 / 10)) / 100000) 1 * 100) := rfl

/-- A windowed volume is non-negative whenever the stored volume values
for the token are. -/
theorem calcVolume_nonneg (mem : VolumeMemory) (token : Nat) (seconds now : ℚ)
    (h : nonneg_samples mem token) : 0 ≤ calculate_volume mem token seconds now := by
  rw [calcVolume_eq_sum]
  apply List.sum_nonneg
  intro x hx
  obtain ⟨s, hs, rfl⟩ := List.mem_map.mp hx
  exact h s (List.mem_filter.mp hs).1

/-- Rounding to hundredths keeps a value of [0, 100] inside [0, 100]. -/
theorem round2_bounds (q : ℚ) (h0 : 0 ≤ q) (h1 : q ≤ 100) :
    0 ≤ round2 q ∧ round2 q ≤ 100 := by
  unfold round2
  rw [round_eq]
  constructor
  · apply div_nonneg _ (by norm_num)
    exact_mod_cast Int.floor_nonneg.2 (by linarith)
  · rw [div_le_iff₀ (by norm_num : (0 : ℚ) < 100)]
    have hf : ⌊q * 100 + 1 / 2⌋ ≤ ⌊(10000 : ℚ) + 1 / 2⌋ :=
      Int.floor_le_floor (by linarith)
    have hv : ⌊(10000 : ℚ) + 1 / 2⌋ = 10000 :=
      Int.floor_eq_iff.mpr ⟨by norm_num, by norm_num⟩
    rw [hv] at hf
    calc ((⌊q * 100 + 1 / 2⌋ : ℤ) : ℚ) ≤ ((10000 : ℤ) : ℚ) := by exact_mod_cast hf
    _ = 100 * 100 := by norm_num

/-- C7: for every instrument scored in a cycle, given a non-negative
tick volume, non-negative open interest and non-negative stored volume
samples (hence non-negative windowed volumes), the computed confidence
lies in the range 0 to 100. -/
theorem C7_confidence_bounded (mem : VolumeMemory) (now : ℚ) (row : Instrument)
    (tick : Tick) (hvol : 0 ≤ tick.volume) (hoi : 0 ≤ tick.oi)
    (hv : nonneg_samples mem row.instrument_token) :
    0 ≤ (snapshotRow mem now row tick).confidence ∧
    (snapshotRow mem now row tick).confidence ≤ 100 := by
  have h10 := calcVolume_nonneg mem row.instrument_token 10 now hv
  have h30 := calcVolume_nonneg mem row.instrument_token 30 now hv
  have h60 := calcVolume_nonneg mem row.instrument_token 60 now hv
  have habs : (0 : ℚ) ≤ |tick.change| := abs_nonneg _
  rw [snapshotRow_confidence]
  have hscore : (0 : ℚ) ≤
      calculate_volume mem row.instrument_token 10 now * (3 / 10)
        + calculate_volume mem row.instrument_token 30 now * (1 / 4)
        + calculate_volume mem row.instrument_token 60 now * (1 / 5)
        + tick.oi * (3 / 20) + |tick.change| * (1 / 10) := by linarith
  apply round2_bounds
  · exact mul_nonneg (le_min (div_nonneg hscore (by norm_num)) (by norm_num)) (by norm_num)
  · have hle : min ((calculate_volume mem row.instrument_token 10 now * (3 / 10)
        + calculate_volume mem row.instrument_token 30 now * (1 / 4)
        + calculate_volume mem row.instrument_token 60 now * (1 / 5)
        + tick.oi * (3 / 20) + |tick.change| * (1 / 10)) / 100000) 1 ≤ 1 :=
      min_le_right _ _
    nlinarith [hle]

/-- Witness for C7 at a concrete input: an all-zero tick over the empty
store. -/
theorem C7_witness :
    ((0 : ℚ) ≤ (⟨3, 0, 0, 0, 0, 0⟩ : Tick).volume) ∧
    ((0 : ℚ) ≤ (⟨3, 0, 0, 0, 0, 0⟩ : Tick).oi) ∧
    nonneg_samples (fun _ => []) 3 ∧
    (0 ≤ (snapshotRow (fun _ => []) 0 ⟨3, "X", 0, "CE"⟩ ⟨3, 0, 0, 0, 0, 0⟩).confidence ∧
      (snapshotRow (fun _ => []) 0 ⟨3, "X", 0, "CE"⟩ ⟨3, 0, 0, 0, 0, 0⟩).confidence ≤ 100) := by
  have hv : nonneg_samples (fun _ => ([] : List Sample)) 3 := by
    intro s hs
    simp at hs
  exact ⟨le_refl 0, le_refl 0, hv,
    C7_confidence_bounded (fun _ => []) 0 ⟨3, "X", 0, "CE"⟩ ⟨3, 0, 0, 0, 0, 0⟩
      (le_refl 0) (le_refl 0) hv⟩
